import Mathlib

/-!
# Verification of the e-Distribuzione CSV middleware

Shallow embedding of the pure/decidable parts of `src/edis_pw.py` and
`src/main.py` (the `info496/edis-middleware` repository), together with
theorems settling the specification claims about them.

Conventions:
* Python strings are modelled as Lean `String`/`List Char`.
* Python byte strings are modelled as `List Nat` (each entry a byte value).
* Python `None`-able results are modelled with `Option`; code that can raise
  is modelled with `Except String` carrying the exception message.
* Python floats are modelled exactly: finite values are rationals (no binary
  rounding or overflow is modelled), plus distinguished `inf`/`-inf`/`nan`.
-/

deriving instance DecidableEq for Except

namespace Edis

/-! ## Basic Python string helpers -/

/-- ASCII whitespace, as recognised by `str.strip()` / `float()` for the
inputs relevant here (the unicode-only whitespace code points are not
modelled). -/
def isPySpace (c : Char) : Bool :=
  c = ' ' || c = '\t' || c = '\n' || c = '\r' || c = '\x0b' || c = '\x0c'

/-- Python `str.strip()` on a character list. -/
def trimL (cs : List Char) : List Char :=
  ((cs.dropWhile isPySpace).reverse.dropWhile isPySpace).reverse

/-- Python `str.strip()`. -/
def pyStrip (s : String) : String :=
  String.mk (trimL s.data)

/-- Python `str.lower()` (ASCII model). -/
def pyLower (s : String) : String :=
  String.mk (s.data.map Char.toLower)

/-- Python `str.replace(pat, rep)` for a single-character pattern, which is
the only shape used by the source (`.replace(".", "").replace(",", ".")`). -/
def replaceCh (a : Char) (r : List Char) (cs : List Char) : List Char :=
  cs.flatMap (fun c => if c = a then r else [c])

/-- `needle` occurs at the head of `hay`. -/
def matchesAt : List Char → List Char → Bool
  | [], _ => true
  | _ :: _, [] => false
  | a :: as, b :: bs => a = b && matchesAt as bs

/-- `needle` occurs somewhere in `hay` (character lists). -/
def hasSubL (n : List Char) : List Char → Bool
  | [] => matchesAt n []
  | c :: rest => matchesAt n (c :: rest) || hasSubL n rest

/-- Python's substring test `needle in hay`. -/
def hasSub (needle : String) (hay : String) : Bool :=
  hasSubL needle.data hay.data

def isDigitC (c : Char) : Bool := '0' ≤ c && c ≤ '9'

def dval (c : Char) : Nat := c.toNat - 48

def natOfDigits (ds : List Nat) : Nat :=
  ds.foldl (fun acc d => 10 * acc + d) 0

/-! ## Python `float(str)` model (`_parse_number`, edis_pw.py lines 217-226)

`float()` accepts an optionally signed decimal literal with optional
fraction and exponent, with PEP 515 underscores between digits, and the
special spellings `inf`/`infinity`/`nan` (case-insensitive).  Finite values
are modelled as exact rationals. -/

/-- A Python float value: finite (exact rational model), infinities, NaN. -/
inductive PyFloatVal where
  | finite (q : Rat)
  | pinf
  | ninf
  | nan
deriving DecidableEq, Repr

/-- Longest digit run, allowing `_` strictly between digits (PEP 515).
A `_` not followed by a digit terminates the run before the `_`. -/
def parseUDigitsAux : List Char → List Nat → List Nat × List Char
  | [], acc => (acc, [])
  | '_' :: c :: rest, acc =>
    if isDigitC c then parseUDigitsAux rest (acc ++ [dval c])
    else (acc, '_' :: c :: rest)
  | c :: rest, acc =>
    if isDigitC c then parseUDigitsAux rest (acc ++ [dval c])
    else (acc, c :: rest)

/-- A nonempty digit run (with embedded underscores); `none` if the input
does not start with a digit. -/
def parseUDigits (cs : List Char) : Option (List Nat × List Char) :=
  match cs with
  | c :: rest =>
    if isDigitC c then some (parseUDigitsAux rest [dval c]) else none
  | [] => none

/-- The digit parts of a float literal: integer digits, fractional digits,
decimal exponent. -/
structure DecParts where
  ip : List Nat
  fp : List Nat
  ex : Int
deriving DecidableEq, Repr

/-- Mantissa: `digits [. [digits]]` or `. digits`. -/
def parseMantissa (cs : List Char) : Option ((List Nat × List Nat) × List Char) :=
  match parseUDigits cs with
  | some (ip, rest) =>
    match rest with
    | '.' :: r2 =>
      match parseUDigits r2 with
      | some (fp, r3) => some ((ip, fp), r3)
      | none => some ((ip, []), r2)
    | _ => some ((ip, []), rest)
  | none =>
    match cs with
    | '.' :: r2 =>
      match parseUDigits r2 with
      | some (fp, r3) => some (([], fp), r3)
      | none => none
    | _ => none

/-- Optional exponent part `([eE] [+-]? digits)?`; fails if an `e` is present
without digits after it. -/
def parseExp (cs : List Char) : Option (Int × List Char) :=
  match cs with
  | c :: rest =>
    if c = 'e' || c = 'E' then
      match rest with
      | '+' :: r2 =>
        (parseUDigits r2).map (fun p => ((natOfDigits p.1 : Int), p.2))
      | '-' :: r2 =>
        (parseUDigits r2).map (fun p => (-(natOfDigits p.1 : Int), p.2))
      | _ =>
        (parseUDigits rest).map (fun p => ((natOfDigits p.1 : Int), p.2))
    else some (0, cs)
  | [] => some (0, [])

/-- An unsigned finite float literal, requiring the whole input consumed. -/
def parseFin (cs : List Char) : Option DecParts :=
  match parseMantissa cs with
  | some ((ip, fp), rest) =>
    match parseExp rest with
    | some (e, []) => some ⟨ip, fp, e⟩
    | _ => none
  | none => none

/-- Exact rational value of a signed decimal literal
`(-1)^neg * ip.fp * 10^ex`, built from integer arithmetic only. -/
def decValue (neg : Bool) (p : DecParts) : Rat :=
  let m : Int := (natOfDigits p.ip) * 10 ^ p.fp.length + natOfDigits p.fp
  let n : Int := if neg then -m else m
  if 0 ≤ p.ex then Rat.divInt (n * 10 ^ p.ex.toNat) (10 ^ p.fp.length)
  else Rat.divInt n (10 ^ p.fp.length * 10 ^ (-p.ex).toNat)

/-- Body of `float()` after an optional sign has been removed. -/
def pyFloatNoSign (cs : List Char) (neg : Bool) : Option PyFloatVal :=
  let low := cs.map Char.toLower
  if low = "inf".data || low = "infinity".data then
    some (if neg then PyFloatVal.ninf else PyFloatVal.pinf)
  else if low = "nan".data then some PyFloatVal.nan
  else (parseFin cs).map (fun p => PyFloatVal.finite (decValue neg p))

/-- Python `float(str)` on a character list: strip whitespace, optional
sign, then literal body.  `none` models `ValueError`. -/
def pyFloatL (cs : List Char) : Option PyFloatVal :=
  match trimL cs with
  | '+' :: rest => pyFloatNoSign rest false
  | '-' :: rest => pyFloatNoSign rest true
  | t => pyFloatNoSign t false

/-- `edis_pw._parse_number`: strip; empty → `None`; delete every `.`,
then turn `,` into `.`; `float()` it, `None` on failure. -/
def _parse_number (s : String) : Option PyFloatVal :=
  let t := trimL s.data
  if t = [] then none
  else pyFloatL (replaceCh ',' ['.'] (replaceCh '.' [] t))

/-! ## API-key guard (`main.api_key_guard`, main.py lines 59-67) -/

/-- `API_KEY = os.getenv("API_KEY", "").strip()` (main.py line 33):
the configured key derived from the environment variable. -/
def apiKeyFromEnv (env : Option String) : String :=
  pyStrip (env.getD "")

/-- `main.api_key_guard`: with no configured key the guard is disabled;
otherwise any header value different from the key (including a missing
header) raises HTTP 401. -/
def api_key_guard (apiKey : String) (xApiKey : Option String) : Except Nat Unit :=
  if apiKey = "" then Except.ok ()
  else if xApiKey = some apiKey then Except.ok ()
  else Except.error 401

/-! ## The `/refresh` endpoint (`main.refresh`, main.py lines 178-242)

`main.py` imports `refresh_and_download_csv` from `edis_pw`, but the
provided `edis_pw.py` defines only `refresh_with_session` and
`refresh_with_login`; the imported entry point is code of this repository
that is not among the sources, so it is modelled from the spec below.
The on-disk CSV/JSON caching the endpoint performs afterwards is plain I/O
plumbing (spec section 1 places it out of scope) and is not modelled. -/

/-- Observable browser-dependent side effects of one invocation. -/
inductive BrowserEffect where
  | launch
  | navigate (url : String)
  | click (selector : String)
deriving DecidableEq, Repr

/-- Failure kinds of the scraping entry point. -/
inductive RunErr where
  | sessionMissing
  | other (detail : String)
deriving DecidableEq, Repr

/-- Everything that happens once a browser has been launched: the eventual
result (path of the downloaded CSV or an error) and the browser-dependent
effects performed.  Supplied as data so the pre-launch checks can be
verified for every possible browser behaviour. -/
structure BrowserPhase where
  result : Except RunErr String
  effects : List BrowserEffect
deriving Repr

/-- Modelled from the spec: `refresh_and_download_csv` (imported by main.py
line 16 from `edis_pw` but absent from the provided sources).  Spec section
4.1: given the "use saved session" flag, either confirm a snapshot file
exists and proceed, or fail with a distinguished "session missing" error
before any browser-dependent side effect beyond the existence check. -/
def refresh_and_download_csv (useStorage snapshotExists : Bool)
    (browserPhase : BrowserPhase) : Except RunErr String × List BrowserEffect :=
  if useStorage && !snapshotExists then (Except.error RunErr.sessionMissing, [])
  else (browserPhase.result, BrowserEffect.launch :: browserPhase.effects)

/-- Python truthiness test `not x` for an optional string:
true for `None` and for the empty string. -/
def pyFalsyStr : Option String → Bool
  | none => true
  | some t => t = ""

/-- Request body of `/refresh` (`main.RefreshPayload`). -/
structure RefreshPayload where
  username : Option String
  password : Option String
  pod : String
  date_from : String
  date_to : String
  use_storage : Bool
deriving DecidableEq, Repr

/-- Responses of the `/refresh` endpoint. -/
inductive RefreshResponse where
  | httpError (status : Nat) (detail : String)
  | okJson (csvPath jsonPath : String)
  | err500 (detail : String)
deriving DecidableEq, Repr

/-- Detail string carried by the generic 500 answer (`str(e)`). -/
def runErrDetail : RunErr → String
  | RunErr.sessionMissing => "storage_state mancante"
  | RunErr.other d => d

/-- `main.refresh` (main.py lines 178-242): if not using the saved session,
missing/empty credentials are rejected with HTTP 400 before anything else;
otherwise the scraping entry point runs and any exception from it becomes a
500 answer. -/
def refreshEndpoint (p : RefreshPayload) (snapshotExists : Bool)
    (browserPhase : BrowserPhase) : RefreshResponse × List BrowserEffect :=
  if !p.use_storage && (pyFalsyStr p.username || pyFalsyStr p.password) then
    (RefreshResponse.httpError 400 "username/password mancanti", [])
  else
    match refresh_and_download_csv p.use_storage snapshotExists browserPhase with
    | (Except.error e, effs) => (RefreshResponse.err500 (runErrDetail e), effs)
    | (Except.ok _, effs) =>
      (RefreshResponse.okJson
        ("/csv?pod=" ++ p.pod ++ "&date_from=" ++ p.date_from ++
          "&date_to=" ++ p.date_to)
        ("/data?pod=" ++ p.pod ++ "&date_from=" ++ p.date_from ++
          "&date_to=" ++ p.date_to), effs)

/-! ## Period form fill (`edis_pw._try_set_period_by_inputs`, lines 152-179) -/

/-- A Python `datetime.date`. -/
structure PyDate where
  year : Nat
  month : Nat
  day : Nat
deriving DecidableEq, Repr

/-- Render a number zero-padded to two digits. -/
def pad2 (n : Nat) : String :=
  if n < 10 then "0" ++ toString n else toString n

/-- Render a number zero-padded to four digits. -/
def pad4 (n : Nat) : String :=
  if n < 10 then "000" ++ toString n
  else if n < 100 then "00" ++ toString n
  else if n < 1000 then "0" ++ toString n
  else toString n

/-- Python `date.isoformat()`: `YYYY-MM-DD`. -/
def pyDateIsoformat (d : PyDate) : String :=
  pad4 d.year ++ "-" ++ pad2 d.month ++ "-" ++ pad2 d.day

/-- The parts of the period page the fill strategy inspects: how many
`input[type=date]` elements exist, and whether the fallback fill next to
the "Inizio" / "Fine" labels succeeds. -/
structure PeriodPage where
  dateInputCount : Nat
  fillNearInizioOk : Bool
  fillNearFineOk : Bool
deriving DecidableEq, Repr

/-- A value written into a form field. -/
inductive FillEvent where
  | fillDateInput (index : Nat) (value : String)
  | fillNear (label : String) (value : String)
deriving DecidableEq, Repr

/-- The text value a fill event writes. -/
def fillValue : FillEvent → String
  | FillEvent.fillDateInput _ v => v
  | FillEvent.fillNear _ v => v

/-- `edis_pw._try_set_period_by_inputs`: with at least two
`input[type=date]` elements, fill them with `dfrom.isoformat()` and
`dto.isoformat()`; otherwise best-effort fill of inputs near the
"Inizio" / "Fine" labels, again with the `isoformat()` texts.  Returns the
success flag and every value written. -/
def _try_set_period_by_inputs (page : PeriodPage) (dfrom dto : PyDate) :
    Bool × List FillEvent :=
  if page.dateInputCount ≥ 2 then
    (true, [FillEvent.fillDateInput 0 (pyDateIsoformat dfrom),
            FillEvent.fillDateInput 1 (pyDateIsoformat dto)])
  else
    let e1 := if page.fillNearInizioOk
      then [FillEvent.fillNear "Inizio" (pyDateIsoformat dfrom)] else []
    let e2 := if page.fillNearFineOk
      then [FillEvent.fillNear "Fine" (pyDateIsoformat dto)] else []
    (page.fillNearInizioOk && page.fillNearFineOk, e1 ++ e2)

/-! ## Download click (`edis_pw._click_download_csv`, lines 182-214) -/

/-- The two locator strategies tried for each candidate label. -/
inductive LocKind where
  | byRole
  | byText
deriving DecidableEq, Repr

/-- What clicking a locator's first match produces: a browser download
event (whose saved temp-file path is the payload), a Playwright timeout,
or some other exception. -/
inductive DlOutcome where
  | success (path : String)
  | timeout
  | failure
deriving DecidableEq, Repr

/-- The page as seen by the download step: for each candidate label and
locator strategy, what the click attempt produces. -/
structure DlPage where
  outcome : String → LocKind → DlOutcome

/-- The candidate button labels, in the order tried (edis_pw.py 188-193). -/
def downloadLabels : List String :=
  ["Scarica il dettaglio quartorario .csv",
   "Scarica il dettaglio quartorario",
   "Download CSV",
   "Scarica csv"]

/-- Try the two locators of one label; `some path` on a download event. -/
def tryLabel (page : DlPage) (name : String) : Option String :=
  match page.outcome name LocKind.byRole with
  | DlOutcome.success p => some p
  | _ =>
    match page.outcome name LocKind.byText with
    | DlOutcome.success p => some p
    | _ => none

/-- `edis_pw._click_download_csv`: try each label with each locator; the
first download event wins; otherwise raise
`RuntimeError("Pulsante download CSV non trovato")`.  The second component
is the diagnostic log the function emits (the source has no logging, so it
is always empty). -/
def _click_download_csv (page : DlPage) : Except String String × List String :=
  match downloadLabels.findSome? (tryLabel page) with
  | some p => (Except.ok p, [])
  | none => (Except.error "Pulsante download CSV non trovato", [])

/-! ## Timestamp normalization (`edis_pw._normalize_ts`, lines 301-328)

`datetime.strptime` is modelled faithfully at the level of CPython's
`_strptime` regexes: each directive is an ordered alternation of digit
shapes (e.g. `%d` is `3[01] | [12]\d | 0[1-9] | [1-9]`), literal letters
match case-insensitively, format whitespace matches one or more input
whitespace characters, the first backtracking match is taken and the whole
input must be consumed, and the resulting fields must form a valid
`datetime` (real day of month, year at least 1).  Each token parser
returns its candidate (value, rest) pairs in regex preference order, and
sequencing with `flatMap` reproduces depth-first backtracking. -/

/-- A Python `datetime` (only the fields these formats populate). -/
structure PyDateTime where
  year : Nat
  month : Nat
  day : Nat
  hour : Nat
  minute : Nat
deriving DecidableEq, Repr

/-- `%d`: `3[01] | [12]\d | 0[1-9] | [1-9]`. -/
def pDay : List Char → List (Nat × List Char)
  | [] => []
  | [c] => if '1' ≤ c && c ≤ '9' then [(dval c, [])] else []
  | c1 :: c2 :: rest =>
    (if c1 = '3' && (c2 = '0' || c2 = '1') then [(30 + dval c2, rest)] else []) ++
    (if (c1 = '1' || c1 = '2') && isDigitC c2
      then [(10 * dval c1 + dval c2, rest)] else []) ++
    (if c1 = '0' && '1' ≤ c2 && c2 ≤ '9' then [(dval c2, rest)] else []) ++
    (if '1' ≤ c1 && c1 ≤ '9' then [(dval c1, c2 :: rest)] else [])

/-- `%m`: `1[0-2] | 0[1-9] | [1-9]`. -/
def pMonth : List Char → List (Nat × List Char)
  | [] => []
  | [c] => if '1' ≤ c && c ≤ '9' then [(dval c, [])] else []
  | c1 :: c2 :: rest =>
    (if c1 = '1' && ('0' ≤ c2 && c2 ≤ '2') then [(10 + dval c2, rest)] else []) ++
    (if c1 = '0' && '1' ≤ c2 && c2 ≤ '9' then [(dval c2, rest)] else []) ++
    (if '1' ≤ c1 && c1 ≤ '9' then [(dval c1, c2 :: rest)] else [])

/-- `%H`: `2[0-3] | [0-1]\d | \d`. -/
def pHour : List Char → List (Nat × List Char)
  | [] => []
  | [c] => if isDigitC c then [(dval c, [])] else []
  | c1 :: c2 :: rest =>
    (if c1 = '2' && ('0' ≤ c2 && c2 ≤ '3') then [(20 + dval c2, rest)] else []) ++
    (if (c1 = '0' || c1 = '1') && isDigitC c2
      then [(10 * dval c1 + dval c2, rest)] else []) ++
    (if isDigitC c1 then [(dval c1, c2 :: rest)] else [])

/-- `%M`: `[0-5]\d | \d`. -/
def pMin : List Char → List (Nat × List Char)
  | [] => []
  | [c] => if isDigitC c then [(dval c, [])] else []
  | c1 :: c2 :: rest =>
    (if ('0' ≤ c1 && c1 ≤ '5') && isDigitC c2
      then [(10 * dval c1 + dval c2, rest)] else []) ++
    (if isDigitC c1 then [(dval c1, c2 :: rest)] else [])

/-- `%Y`: exactly four digits. -/
def pYear : List Char → List (Nat × List Char)
  | c1 :: c2 :: c3 :: c4 :: rest =>
    if isDigitC c1 && isDigitC c2 && isDigitC c3 && isDigitC c4 then
      [(1000 * dval c1 + 100 * dval c2 + 10 * dval c3 + dval c4, rest)]
    else []
  | _ => []

/-- A literal format character (case-insensitive, as `_strptime` compiles
its regex with `IGNORECASE`). -/
def pLit (t : Char) : List Char → List (List Char)
  | [] => []
  | c :: rest => if c.toLower = t.toLower then [rest] else []

/-- Format whitespace: `\s+`, candidates longest first. -/
def pWs (cs : List Char) : List (List Char) :=
  let k := (cs.takeWhile isPySpace).length
  (List.range k).map (fun i => cs.drop (k - i))

/-- Days in a month of the (proleptic Gregorian) calendar. -/
def daysInMonth (y m : Nat) : Nat :=
  if m = 2 then
    if y % 4 = 0 && (y % 100 ≠ 0 || y % 400 = 0) then 29 else 28
  else if m = 4 || m = 6 || m = 9 || m = 11 then 30
  else 31

/-- The `datetime(...)` constructor checks (fields the regexes do not
already bound): year in `MINYEAR..MAXYEAR` and a real day of month. -/
def validCivil (dt : PyDateTime) : Bool :=
  1 ≤ dt.year && dt.year ≤ 9999 && 1 ≤ dt.day && dt.day ≤ daysInMonth dt.year dt.month

/-- The six `strptime` input formats tried by `_normalize_ts`, in order. -/
inductive TsFmt where
  | dmySlashColon
  | dmySlashDot
  | ymdSpaceColon
  | ymdTColon
  | dmyOnly
  | ymdOnly
deriving DecidableEq, Repr

/-- `dd/mm/yyyy` prefix shared by three formats. -/
def runDmy (cs : List Char) : List ((Nat × Nat × Nat) × List Char) :=
  (pDay cs).flatMap (fun dp =>
    (pLit '/' dp.2).flatMap (fun r2 =>
      (pMonth r2).flatMap (fun mp =>
        (pLit '/' mp.2).flatMap (fun r4 =>
          (pYear r4).map (fun yp => ((dp.1, mp.1, yp.1), yp.2))))))

/-- `yyyy-mm-dd` prefix shared by three formats. -/
def runYmd (cs : List Char) : List ((Nat × Nat × Nat) × List Char) :=
  (pYear cs).flatMap (fun yp =>
    (pLit '-' yp.2).flatMap (fun r2 =>
      (pMonth r2).flatMap (fun mp =>
        (pLit '-' mp.2).flatMap (fun r4 =>
          (pDay r4).map (fun dp => ((dp.1, mp.1, yp.1), dp.2))))))

/-- `hh:mm` (or `hh.mm`) suffix. -/
def runHm (sep : Char) (cs : List Char) : List ((Nat × Nat) × List Char) :=
  (pHour cs).flatMap (fun hp =>
    (pLit sep hp.2).flatMap (fun r2 =>
      (pMin r2).map (fun mp => ((hp.1, mp.1), mp.2))))

/-- All backtracking matches of one format, in regex preference order. -/
def runFmt : TsFmt → List Char → List (PyDateTime × List Char)
  | TsFmt.dmySlashColon, cs =>
    (runDmy cs).flatMap (fun dp =>
      (pWs dp.2).flatMap (fun r2 =>
        (runHm ':' r2).map (fun hp =>
          (⟨dp.1.2.2, dp.1.2.1, dp.1.1, hp.1.1, hp.1.2⟩, hp.2))))
  | TsFmt.dmySlashDot, cs =>
    (runDmy cs).flatMap (fun dp =>
      (pWs dp.2).flatMap (fun r2 =>
        (runHm '.' r2).map (fun hp =>
          (⟨dp.1.2.2, dp.1.2.1, dp.1.1, hp.1.1, hp.1.2⟩, hp.2))))
  | TsFmt.ymdSpaceColon, cs =>
    (runYmd cs).flatMap (fun dp =>
      (pWs dp.2).flatMap (fun r2 =>
        (runHm ':' r2).map (fun hp =>
          (⟨dp.1.2.2, dp.1.2.1, dp.1.1, hp.1.1, hp.1.2⟩, hp.2))))
  | TsFmt.ymdTColon, cs =>
    (runYmd cs).flatMap (fun dp =>
      (pLit 'T' dp.2).flatMap (fun r2 =>
        (runHm ':' r2).map (fun hp =>
          (⟨dp.1.2.2, dp.1.2.1, dp.1.1, hp.1.1, hp.1.2⟩, hp.2))))
  | TsFmt.dmyOnly, cs =>
    (runDmy cs).map (fun dp => (⟨dp.1.2.2, dp.1.2.1, dp.1.1, 0, 0⟩, dp.2))
  | TsFmt.ymdOnly, cs =>
    (runYmd cs).map (fun dp => (⟨dp.1.2.2, dp.1.2.1, dp.1.1, 0, 0⟩, dp.2))

/-- `datetime.strptime(s, fmt)`: take the first backtracking match, require
the whole input consumed ("unconverted data remains" otherwise) and a valid
civil date; `none` models `ValueError`. -/
def strptimeFmt (f : TsFmt) (cs : List Char) : Option PyDateTime :=
  match runFmt f cs with
  | [] => none
  | (dt, rest) :: _ =>
    if rest = [] && validCivil dt then some dt else none

/-- The `fmt_out` rendering for a format: `"%Y-%m-%dT%H:%M:00"` for the
timed formats, `"%Y-%m-%dT00:00:00"` for the date-only ones.  `%Y` is
zero-padded to four digits (CPython normalizes the century), `%m %d %H %M`
to two. -/
def strftimeOut (f : TsFmt) (dt : PyDateTime) : String :=
  match f with
  | TsFmt.dmyOnly =>
    pad4 dt.year ++ "-" ++ pad2 dt.month ++ "-" ++ pad2 dt.day ++ "T00:00:00"
  | TsFmt.ymdOnly =>
    pad4 dt.year ++ "-" ++ pad2 dt.month ++ "-" ++ pad2 dt.day ++ "T00:00:00"
  | _ =>
    pad4 dt.year ++ "-" ++ pad2 dt.month ++ "-" ++ pad2 dt.day ++ "T" ++
      pad2 dt.hour ++ ":" ++ pad2 dt.minute ++ ":00"

/-- The candidate (input format, output format) list of `_normalize_ts`,
in source order (edis_pw.py lines 306-313). -/
def tsFmtList : List TsFmt :=
  [TsFmt.dmySlashColon, TsFmt.dmySlashDot, TsFmt.ymdSpaceColon,
   TsFmt.ymdTColon, TsFmt.dmyOnly, TsFmt.ymdOnly]

/-- Try the formats in order, rendering with the first that parses. -/
def tryTsFmts : List TsFmt → List Char → Option String
  | [], _ => none
  | f :: fs, cs =>
    match strptimeFmt f cs with
    | some dt => some (strftimeOut f dt)
    | none => tryTsFmts fs cs

/-- `edis_pw._normalize_ts`: strip; empty → `None`; try the six formats;
on failure retry with every `.` replaced by `:` (`re.sub(r"[.]", ":", s)`);
`None` if nothing matches. -/
def _normalize_ts (s : String) : Option String :=
  let t := trimL s.data
  if t = [] then none
  else
    match tryTsFmts tsFmtList t with
    | some o => some o
    | none => tryTsFmts tsFmtList (t.map (fun c => if c = '.' then ':' else c))

/-! ## CSV parsing (`edis_pw._parse_csv_to_rows`, lines 229-298)

The pipeline is `bytes.decode("utf-8", errors="ignore")`, a delimiter
sniff (wrapped in `try/except` with `;` as fallback), `csv.reader`, then
header detection and row mapping.  The reader is CPython's `_csv` state
machine for the default dialect (quote `"`, doublequote, non-strict): the
input is split into `\n`-terminated chunks (as iterating an
`io.StringIO` does), each chunk is fed through the machine character by
character followed by an end-of-chunk sentinel, and a carriage return
followed by more text inside the same chunk raises the well-known
`new-line character seen in unquoted field` error. -/

/-- Is a byte a UTF-8 continuation byte? -/
def contOk (b : Nat) : Bool := 0x80 ≤ b && b ≤ 0xBF

/-- Allowed range of the first continuation byte after a 3-byte lead. -/
def cont3Ok (lead b : Nat) : Bool :=
  if lead = 0xE0 then 0xA0 ≤ b && b ≤ 0xBF
  else if lead = 0xED then 0x80 ≤ b && b ≤ 0x9F
  else contOk b

/-- Allowed range of the first continuation byte after a 4-byte lead. -/
def cont4Ok (lead b : Nat) : Bool :=
  if lead = 0xF0 then 0x90 ≤ b && b ≤ 0xBF
  else if lead = 0xF4 then 0x80 ≤ b && b ≤ 0x8F
  else contOk b

/-- Fuel-indexed UTF-8 decoder core (structural recursion on the fuel so
that it evaluates inside the kernel). -/
def utf8Aux : Nat → List Nat → List Char
  | 0, _ => []
  | _ + 1, [] => []
  | fuel + 1, b :: rest =>
    if b < 0x80 then Char.ofNat b :: utf8Aux fuel rest
    else if 0xC2 ≤ b && b ≤ 0xDF then
      match rest with
      | [] => []
      | b1 :: r1 =>
        if contOk b1 then
          Char.ofNat ((b - 0xC0) * 64 + (b1 - 0x80)) :: utf8Aux fuel r1
        else utf8Aux fuel (b1 :: r1)
    else if 0xE0 ≤ b && b ≤ 0xEF then
      match rest with
      | [] => []
      | b1 :: r1 =>
        if cont3Ok b b1 then
          match r1 with
          | [] => []
          | b2 :: r2 =>
            if contOk b2 then
              Char.ofNat (((b - 0xE0) * 64 + (b1 - 0x80)) * 64 + (b2 - 0x80)) ::
                utf8Aux fuel r2
            else utf8Aux fuel (b2 :: r2)
        else utf8Aux fuel (b1 :: r1)
    else if 0xF0 ≤ b && b ≤ 0xF4 then
      match rest with
      | [] => []
      | b1 :: r1 =>
        if cont4Ok b b1 then
          match r1 with
          | [] => []
          | b2 :: r2 =>
            if contOk b2 then
              match r2 with
              | [] => []
              | b3 :: r3 =>
                if contOk b3 then
                  Char.ofNat ((((b - 0xF0) * 64 + (b1 - 0x80)) * 64 +
                    (b2 - 0x80)) * 64 + (b3 - 0x80)) :: utf8Aux fuel r3
                else utf8Aux fuel (b3 :: r3)
            else utf8Aux fuel (b2 :: r2)
        else utf8Aux fuel (b1 :: r1)
    else utf8Aux fuel rest

/-- `bytes.decode("utf-8", errors="ignore")`: well-formed sequences are
decoded; each maximal invalid subpart is skipped and decoding resumes at
the next byte.  (`utf8Aux` consumes at least one byte per step, so the
byte count is enough fuel.) -/
def utf8DecodeIgnore (bs : List Nat) : List Char :=
  utf8Aux bs.length bs

/-- `csv.Sniffer().sniff(text[:1024], delimiters=";,")`, reduced to the
frequency comparison the claims depend on: pick whichever of `;` and `,`
occurs more often in the sample, raising `Could not determine delimiter`
when neither occurs (the full stdlib quote-adjacency and per-line
consistency heuristics are abstracted into this frequency rule; no claim
depends on which of the two delimiters is chosen). -/
def sniffDelim (sample : List Char) : Except String Char :=
  let sc := (sample.filter (fun c => c = ';')).length
  let cc := (sample.filter (fun c => c = ',')).length
  if sc = 0 && cc = 0 then Except.error "Could not determine delimiter"
  else if cc > sc then Except.ok ',' else Except.ok ';'

/-- States of CPython's `_csv` reader machine. -/
inductive CsvState where
  | startRecord
  | startField
  | inField
  | inQuoted
  | quoteInQuoted
  | eatCrnl
deriving DecidableEq, Repr

/-- Split into `\n`-terminated chunks, the terminator kept (how iterating
`io.StringIO` with its default `newline='\n'` hands lines to the reader). -/
def splitKeepNl : List Char → List (List Char)
  | [] => []
  | c :: rest =>
    if c = '\n' then [c] :: splitKeepNl rest
    else
      match splitKeepNl rest with
      | [] => [[c]]
      | l :: ls => (c :: l) :: ls

/-- The error CPython's reader raises for a stray carriage return. -/
def nlErrMsg : String :=
  "new-line character seen in unquoted field - do you need to open the file in universal-newline mode?"

/-- One machine step on a character that begins a field
(the `START_RECORD`/`START_FIELD` logic of `_csv`). -/
def csvStartField (delim : Char) (c : Char) (row : List String) :
    CsvState × List Char × List String :=
  if c = '\n' || c = '\r' then (CsvState.eatCrnl, [], row ++ [""])
  else if c = '"' then (CsvState.inQuoted, [], row)
  else if c = delim then (CsvState.startField, [], row ++ [""])
  else (CsvState.inField, [c], row)

/-- Run the machine over one chunk; returns the updated
(state, current field, current row, emitted rows) or the stray-`\r` error.
The `[]` case is the end-of-chunk sentinel: it closes the record unless a
quoted field is still open. -/
def csvChunk (delim : Char) :
    List Char → CsvState → List Char → List String → List (List String) →
    Except String (CsvState × List Char × List String × List (List String))
  | [], st, f, row, rows =>
    match st with
    | CsvState.startRecord => Except.ok (CsvState.startRecord, f, row, rows)
    | CsvState.startField =>
      Except.ok (CsvState.startRecord, [], [], rows ++ [row ++ [String.mk f]])
    | CsvState.inField =>
      Except.ok (CsvState.startRecord, [], [], rows ++ [row ++ [String.mk f]])
    | CsvState.inQuoted => Except.ok (CsvState.inQuoted, f, row, rows)
    | CsvState.quoteInQuoted =>
      Except.ok (CsvState.startRecord, [], [], rows ++ [row ++ [String.mk f]])
    | CsvState.eatCrnl => Except.ok (CsvState.startRecord, [], [], rows ++ [row])
  | c :: rest, st, f, row, rows =>
    match st with
    | CsvState.startRecord =>
      if c = '\n' || c = '\r' then
        csvChunk delim rest CsvState.eatCrnl [] row rows
      else
        match csvStartField delim c row with
        | (st', f', row') => csvChunk delim rest st' f' row' rows
    | CsvState.startField =>
      match csvStartField delim c row with
      | (st', f', row') => csvChunk delim rest st' f' row' rows
    | CsvState.inField =>
      if c = '\n' || c = '\r' then
        csvChunk delim rest CsvState.eatCrnl [] (row ++ [String.mk f]) rows
      else if c = delim then
        csvChunk delim rest CsvState.startField [] (row ++ [String.mk f]) rows
      else csvChunk delim rest CsvState.inField (f ++ [c]) row rows
    | CsvState.inQuoted =>
      if c = '"' then csvChunk delim rest CsvState.quoteInQuoted f row rows
      else csvChunk delim rest CsvState.inQuoted (f ++ [c]) row rows
    | CsvState.quoteInQuoted =>
      if c = '"' then csvChunk delim rest CsvState.inQuoted (f ++ [c]) row rows
      else if c = delim then
        csvChunk delim rest CsvState.startField [] (row ++ [String.mk f]) rows
      else if c = '\n' || c = '\r' then
        csvChunk delim rest CsvState.eatCrnl [] (row ++ [String.mk f]) rows
      else csvChunk delim rest CsvState.inField (f ++ [c]) row rows
    | CsvState.eatCrnl =>
      if c = '\r' || c = '\n' then csvChunk delim rest CsvState.eatCrnl f row rows
      else Except.error nlErrMsg

/-- Run the machine over all chunks; at end of input an open quoted field
is flushed as a final record (non-strict dialect). -/
def csvChunks (delim : Char) :
    List (List Char) → CsvState → List Char → List String → List (List String) →
    Except String (List (List String))
  | [], st, f, row, rows =>
    if st = CsvState.inQuoted then Except.ok (rows ++ [row ++ [String.mk f]])
    else Except.ok rows
  | l :: ls, st, f, row, rows =>
    match csvChunk delim l st f row rows with
    | Except.error e => Except.error e
    | Except.ok (st', f', row', rows') => csvChunks delim ls st' f' row' rows'

/-- `list(csv.reader(io.StringIO(text), delimiter=delim))`, or the
exception it raises (the text given as its character list). -/
def csvReadAll (delim : Char) (text : List Char) : Except String (List (List String)) :=
  csvChunks delim (splitKeepNl text) CsvState.startRecord [] [] []

/-- The parsed row record `{"ts": ..., "kWh": ..., "quality": ...}`.
`ts` and `kWh` are `Option`s as in the source, where both are `None`-able
locals appended only under a guard. -/
structure CsvRec where
  ts : Option String
  kWh : Option PyFloatVal
  quality : Option String
deriving DecidableEq, Repr

/-- The timestamp of one data row when a date column (and possibly a time
column) is used: missing cells default to `""` / `"00:00"` and the two
texts are joined with a space. -/
def rowTsDate (idxDate idxTime : Option Nat) (r : List String) : Option String :=
  match idxDate with
  | none => none
  | some i =>
    let dRaw := if i < r.length then pyStrip (r.getD i "") else ""
    let tRaw :=
      match idxTime with
      | some j => if j < r.length then pyStrip (r.getD j "") else "00:00"
      | none => "00:00"
    _normalize_ts (dRaw ++ " " ++ tRaw)

/-- The timestamp of one data row: a combined timestamp column takes
precedence when present, in range and non-blank; else the date(+time)
columns. -/
def rowTs (idxTs idxDate idxTime : Option Nat) (r : List String) : Option String :=
  match idxTs with
  | some i =>
    if i < r.length && pyStrip (r.getD i "") ≠ "" then
      _normalize_ts (pyStrip (r.getD i ""))
    else rowTsDate idxDate idxTime r
  | none => rowTsDate idxDate idxTime r

/-- The numeric value of one data row. -/
def rowVal (idxVal : Option Nat) (r : List String) : Option PyFloatVal :=
  match idxVal with
  | some i => if i < r.length then _parse_number (r.getD i "") else none
  | none => none

/-- The quality flag of one data row. -/
def rowQual (idxQ : Option Nat) (r : List String) : Option String :=
  match idxQ with
  | some i => if i < r.length then some (pyStrip (r.getD i "")) else none
  | none => none

/-- The loop after header detection: skip rows until the header row is
seen, skip blank rows, and append a record exactly when both a timestamp
and a numeric value were produced. -/
def rowsLoop (header : List String) (idxTs idxDate idxTime idxVal idxQ : Option Nat) :
    List (List String) → Bool → List CsvRec
  | [], _ => []
  | r :: rest, started =>
    if !started then
      rowsLoop header idxTs idxDate idxTime idxVal idxQ rest (r.map pyStrip = header)
    else if r.all (fun c => pyStrip c = "") then
      rowsLoop header idxTs idxDate idxTime idxVal idxQ rest true
    else
      let ts := rowTs idxTs idxDate idxTime r
      let val := rowVal idxVal r
      let q := rowQual idxQ r
      if ts.isSome && val.isSome then
        CsvRec.mk ts val q :: rowsLoop header idxTs idxDate idxTime idxVal idxQ rest true
      else rowsLoop header idxTs idxDate idxTime idxVal idxQ rest true

/-- The same loop, counting instead the data rows that are dropped because
timestamp or value failed to parse.  (The source keeps no such counter;
this instrumentation only exists to state what information the output does
not determine.) -/
def droppedLoop (header : List String) (idxTs idxDate idxTime idxVal idxQ : Option Nat) :
    List (List String) → Bool → Nat
  | [], _ => 0
  | r :: rest, started =>
    if !started then
      droppedLoop header idxTs idxDate idxTime idxVal idxQ rest (r.map pyStrip = header)
    else if r.all (fun c => pyStrip c = "") then
      droppedLoop header idxTs idxDate idxTime idxVal idxQ rest true
    else
      let ts := rowTs idxTs idxDate idxTime r
      let val := rowVal idxVal r
      (if ts.isSome && val.isSome then 0 else 1) +
        droppedLoop header idxTs idxDate idxTime idxVal idxQ rest true

/-- `edis_pw._parse_csv_to_rows`: decode, sniff (failure caught, `;`
default), read, find the header (first row with a non-blank cell), locate
the columns by substring match on the lowered header names, then map the
data rows.  Errors of the reader itself are not caught and propagate. -/
def _parse_csv_to_rows (csvBytes : List Nat) : Except String (List CsvRec) :=
  let text := utf8DecodeIgnore csvBytes
  let delim :=
    match sniffDelim (text.take 1024) with
    | Except.ok d => d
    | Except.error _ => ';'
  match csvReadAll delim text with
  | Except.error e => Except.error e
  | Except.ok rows =>
    if rows = [] then Except.ok []
    else
      match rows.find? (fun r => r.any (fun c => pyStrip c ≠ "")) with
      | none => Except.ok []
      | some hrow =>
        let header := hrow.map pyStrip
        let lower := header.map pyLower
        let idxDate := lower.findIdx? (fun h => hasSub "data" h || hasSub "date" h)
        let idxTime := lower.findIdx? (fun h => hasSub "ora" h || hasSub "time" h)
        let idxTs := lower.findIdx? (fun h =>
          hasSub "timestamp" h || hasSub "data-ora" h || hasSub "datetime" h)
        let idxVal := lower.findIdx? (fun h =>
          hasSub "kwh" h || hasSub "energia" h || hasSub "valore" h)
        let idxQ := lower.findIdx? (fun h => hasSub "qualit" h || hasSub "quality" h)
        Except.ok (rowsLoop header idxTs idxDate idxTime idxVal idxQ rows false)

/-- How many data rows `_parse_csv_to_rows` drops for lacking a valid
timestamp or numeric value (ghost instrumentation, same pipeline). -/
def droppedRowCount (csvBytes : List Nat) : Nat :=
  let text := utf8DecodeIgnore csvBytes
  let delim :=
    match sniffDelim (text.take 1024) with
    | Except.ok d => d
    | Except.error _ => ';'
  match csvReadAll delim text with
  | Except.error _ => 0
  | Except.ok rows =>
    if rows = [] then 0
    else
      match rows.find? (fun r => r.any (fun c => pyStrip c ≠ "")) with
      | none => 0
      | some hrow =>
        let header := hrow.map pyStrip
        let lower := header.map pyLower
        let idxDate := lower.findIdx? (fun h => hasSub "data" h || hasSub "date" h)
        let idxTime := lower.findIdx? (fun h => hasSub "ora" h || hasSub "time" h)
        let idxTs := lower.findIdx? (fun h =>
          hasSub "timestamp" h || hasSub "data-ora" h || hasSub "datetime" h)
        let idxVal := lower.findIdx? (fun h =>
          hasSub "kwh" h || hasSub "energia" h || hasSub "valore" h)
        let idxQ := lower.findIdx? (fun h => hasSub "qualit" h || hasSub "quality" h)
        droppedLoop header idxTs idxDate idxTime idxVal idxQ rows false

/-- The bytes of an ASCII string, for concrete test inputs. -/
def asciiBytes (s : String) : List Nat :=
  s.data.map Char.toNat

/-- The canonical timestamp text `YYYY-MM-DDTHH:MM:00`. -/
def canonTs (y mo d h mi : Nat) : String :=
  pad4 y ++ "-" ++ pad2 mo ++ "-" ++ pad2 d ++ "T" ++ pad2 h ++ ":" ++ pad2 mi ++ ":00"

/-! ## Helper lemmas -/

theorem replaceCh_id_of_not_mem (a : Char) (r : List Char) :
    ∀ l : List Char, (∀ c ∈ l, c ≠ a) → replaceCh a r l = l := by
  intro l
  induction l with
  | nil => intro _; rfl
  | cons c rest ih =>
    intro h
    have hc : c ≠ a := h c (List.mem_cons_self c rest)
    have hrest := ih (fun x hx => h x (List.mem_cons_of_mem c hx))
    simp [replaceCh] at hrest ⊢
    simp [hc, hrest]

theorem mem_replaceCh_del (a : Char) :
    ∀ l : List Char, ∀ c ∈ replaceCh a [] l, c ∈ l := by
  intro l
  induction l with
  | nil => intro c hc; simp [replaceCh] at hc
  | cons d rest ih =>
    intro c hc
    simp only [replaceCh, List.flatMap_cons] at hc
    rcases List.mem_append.mp hc with h1 | h2
    · by_cases hd : d = a
      · simp [hd] at h1
      · simp [hd] at h1
        simp [h1]
    · exact List.mem_cons_of_mem d (ih c h2)

theorem rowsLoop_mem (header : List String) (i1 i2 i3 i4 i5 : Option Nat) :
    ∀ (rows : List (List String)) (started : Bool) (rec : CsvRec),
      rec ∈ rowsLoop header i1 i2 i3 i4 i5 rows started →
      rec.ts.isSome = true ∧ rec.kWh.isSome = true := by
  intro rows
  induction rows with
  | nil => intro started rec h; simp [rowsLoop] at h
  | cons r rest ih =>
    intro started rec h
    simp only [rowsLoop] at h
    split at h
    · exact ih _ rec h
    · split at h
      · exact ih _ rec h
      · split at h
        next hg =>
          rcases List.mem_cons.mp h with h1 | h2
          · subst h1
            exact ⟨((Bool.and_eq_true _ _).mp hg).1, ((Bool.and_eq_true _ _).mp hg).2⟩
          · exact ih _ rec h2
        next => exact ih _ rec h

theorem strftimeOut_canon (f : TsFmt) (dt : PyDateTime) :
    ∃ y mo d h mi, strftimeOut f dt = canonTs y mo d h mi := by
  have htail : ∀ a : String, a ++ "T00:00:00" =
      a ++ "T" ++ pad2 0 ++ ":" ++ pad2 0 ++ ":00" := by
    intro a
    simp only [String.append_assoc]
    rfl
  cases f with
  | dmyOnly =>
    refine ⟨dt.year, dt.month, dt.day, 0, 0, ?_⟩
    simpa [strftimeOut, canonTs, String.append_assoc] using
      htail (pad4 dt.year ++ "-" ++ pad2 dt.month ++ "-" ++ pad2 dt.day)
  | ymdOnly =>
    refine ⟨dt.year, dt.month, dt.day, 0, 0, ?_⟩
    simpa [strftimeOut, canonTs, String.append_assoc] using
      htail (pad4 dt.year ++ "-" ++ pad2 dt.month ++ "-" ++ pad2 dt.day)
  | dmySlashColon => exact ⟨dt.year, dt.month, dt.day, dt.hour, dt.minute, rfl⟩
  | dmySlashDot => exact ⟨dt.year, dt.month, dt.day, dt.hour, dt.minute, rfl⟩
  | ymdSpaceColon => exact ⟨dt.year, dt.month, dt.day, dt.hour, dt.minute, rfl⟩
  | ymdTColon => exact ⟨dt.year, dt.month, dt.day, dt.hour, dt.minute, rfl⟩

theorem tryTsFmts_canon :
    ∀ (fmts : List TsFmt) (cs : List Char) (o : String),
      tryTsFmts fmts cs = some o → ∃ y mo d h mi, o = canonTs y mo d h mi := by
  intro fmts
  induction fmts with
  | nil => intro cs o h; simp [tryTsFmts] at h
  | cons f fs ih =>
    intro cs o h
    simp only [tryTsFmts] at h
    cases hp : strptimeFmt f cs with
    | some dt =>
      rw [hp] at h
      have := strftimeOut_canon f dt
      rcases this with ⟨y, mo, d, hh, mi, heq⟩
      exact ⟨y, mo, d, hh, mi, by
        have : o = strftimeOut f dt := by
          have := h
          simp at this
          exact this.symm
        rw [this, heq]⟩
    | none =>
      rw [hp] at h
      exact ih cs o h

/-- A page on which no download-control attempt produces a download. -/
def dlPageNone : DlPage := ⟨fun _ _ => DlOutcome.timeout⟩

/-! ## Claim theorems -/

set_option maxRecDepth 100000

/-- C1: the claim says `_parse_csv_to_rows` terminates without raising on
every byte input and always returns a list.  The code contradicts this (and
its own docstring "Ritorna sempre una lista"): on the bytes of `"a\rb"` the
`csv.reader` call, which is outside every `try/except`, raises the
stray-carriage-return error and the exception propagates out of the
function. -/
theorem C1_parse_csv_raises_on_stray_cr :
    _parse_csv_to_rows (asciiBytes "a\rb") = Except.error nlErrMsg := by decide

/-- C2: with `use_storage` set and the session snapshot absent, the
invocation fails with the distinguished session-missing error and performs
no browser-dependent side effect, whatever the browser phase would have
done.  (Settled against the spec-modelled `refresh_and_download_csv`,
which is imported by main.py but absent from the provided sources.) -/
theorem C2_session_missing_before_browser :
    ∀ bp : BrowserPhase,
      refresh_and_download_csv true false bp =
        (Except.error RunErr.sessionMissing, []) := by
  intro bp
  simp [refresh_and_download_csv]

/-- C3: with `use_storage` false and either credential missing or empty,
the `/refresh` endpoint answers HTTP 400 `username/password mancanti`
before any browser effect happens. -/
theorem C3_missing_credentials_http_400 :
    ∀ (p : RefreshPayload) (snap : Bool) (bp : BrowserPhase),
      p.use_storage = false →
      (pyFalsyStr p.username = true ∨ pyFalsyStr p.password = true) →
      refreshEndpoint p snap bp =
        (RefreshResponse.httpError 400 "username/password mancanti", []) := by
  intro p snap bp h1 h2
  have hc : (!p.use_storage && (pyFalsyStr p.username || pyFalsyStr p.password)) = true := by
    rcases h2 with h2 | h2 <;> simp [h1, h2]
  simp [refreshEndpoint, hc]

/-- C3 witness: a concrete payload without username is rejected with 400. -/
theorem C3_missing_credentials_http_400_witness :
    refreshEndpoint
        ⟨none, some "pw", "IT001E0001", "2025-08-01", "2025-08-31", false⟩
        false ⟨Except.ok "f.csv", []⟩ =
      (RefreshResponse.httpError 400 "username/password mancanti", []) :=
  C3_missing_credentials_http_400
    ⟨none, some "pw", "IT001E0001", "2025-08-01", "2025-08-31", false⟩
    false ⟨Except.ok "f.csv", []⟩ (by decide) (Or.inl (by decide))

/-- C4: `_parse_number` maps `"1.234,56"` to the value 1234.56 and the
empty string to `None`. -/
theorem C4_parse_number_mapping :
    _parse_number "1.234,56" = some (PyFloatVal.finite 1234.56) ∧
    _parse_number "" = none := by
  constructor
  · have h1 : _parse_number "1.234,56" =
        some (PyFloatVal.finite (Rat.divInt 123456 100)) := by decide
    have h2 : Rat.divInt 123456 100 = (1234.56 : Rat) := by
      rw [Rat.divInt_eq_div]; norm_num
    rw [h1, h2]
  · rfl

/-- C5 (amended): every record `_parse_csv_to_rows` returns carries a
non-`None` timestamp and a non-`None` numeric value; rows failing either
are dropped without affecting the rest of the parse. -/
theorem C5_output_records_have_ts_and_value :
    ∀ (bs : List Nat) (l : List CsvRec), _parse_csv_to_rows bs = Except.ok l →
      ∀ rec ∈ l, rec.ts.isSome = true ∧ rec.kWh.isSome = true := by
  intro bs l h rec hrec
  simp only [_parse_csv_to_rows] at h
  split at h
  · exact absurd h (by simp)
  · split at h
    · injection h with h2
      subst h2
      simp at hrec
    · split at h
      · injection h with h2
        subst h2
        simp at hrec
      · injection h with h2
        subst h2
        exact rowsLoop_mem _ _ _ _ _ _ _ _ rec hrec

/-- C5 witness: the guarantee applied to a concrete parse with one good and
one dropped row. -/
theorem C5_output_records_witness :
    (CsvRec.mk (some "2024-01-01T00:00:00")
        (some (PyFloatVal.finite (Rat.divInt 1 1))) none).ts.isSome = true ∧
    (CsvRec.mk (some "2024-01-01T00:00:00")
        (some (PyFloatVal.finite (Rat.divInt 1 1))) none).kWh.isSome = true :=
  C5_output_records_have_ts_and_value
    (asciiBytes "Data;kWh\n01/01/2024;1\nx;y")
    [CsvRec.mk (some "2024-01-01T00:00:00")
      (some (PyFloatVal.finite (Rat.divInt 1 1))) none]
    (by decide) _ (by decide)

/-- C5 counterexample: the claim's "the count of dropped rows is reported"
part is false — two inputs with different numbers of dropped rows produce
identical results, so no drop count is kept or derivable from what the
parser returns. -/
theorem C5_drop_count_not_reported :
    _parse_csv_to_rows (asciiBytes "Data;kWh\n01/01/2024;1\nx;y") =
      _parse_csv_to_rows (asciiBytes "Data;kWh\n01/01/2024;1\nx;y\nz;w") ∧
    droppedRowCount (asciiBytes "Data;kWh\n01/01/2024;1\nx;y") = 1 ∧
    droppedRowCount (asciiBytes "Data;kWh\n01/01/2024;1\nx;y\nz;w") = 2 :=
  ⟨by decide, by decide, by decide⟩

/-- C6 (amended): when no candidate control yields a download, the step
fails with the distinct `Pulsante download CSV non trovato` error; no
selector list or match counts are logged (the function logs nothing). -/
theorem C6_download_control_not_found :
    ∀ page : DlPage, (∀ lab k p, page.outcome lab k ≠ DlOutcome.success p) →
      _click_download_csv page =
        (Except.error "Pulsante download CSV non trovato", []) := by
  intro page h
  have htl : ∀ lab, tryLabel page lab = none := by
    intro lab
    unfold tryLabel
    cases h1 : page.outcome lab LocKind.byRole with
    | success p => exact absurd h1 (h lab LocKind.byRole p)
    | timeout =>
      cases h2 : page.outcome lab LocKind.byText with
      | success p => exact absurd h2 (h lab LocKind.byText p)
      | timeout => rfl
      | failure => rfl
    | failure =>
      cases h2 : page.outcome lab LocKind.byText with
      | success p => exact absurd h2 (h lab LocKind.byText p)
      | timeout => rfl
      | failure => rfl
  simp [_click_download_csv, downloadLabels, htl]

/-- C6 witness: the amended behaviour on a page where every attempt times
out. -/
theorem C6_download_control_not_found_witness :
    _click_download_csv dlPageNone =
      (Except.error "Pulsante download CSV non trovato", []) :=
  C6_download_control_not_found dlPageNone (fun _ _ _ => by simp [dlPageNone])

/-- C6 counterexample: the claim's "the diagnostic log includes the list of
attempted selectors together with their match counts" part is false — on a
page where none of the four candidates matches, the failure is raised but
the emitted log is empty, so it lists none of the attempted selectors. -/
theorem C6_empty_log_on_failure :
    (_click_download_csv dlPageNone).1 =
      Except.error "Pulsante download CSV non trovato" ∧
    (_click_download_csv dlPageNone).2 = [] ∧
    downloadLabels.length = 4 ∧
    ¬ (∀ lab ∈ downloadLabels,
        ∃ line ∈ (_click_download_csv dlPageNone).2, hasSub lab line = true) := by
  refine ⟨by decide, by decide, rfl, ?_⟩
  intro hall
  rcases hall "Download CSV" (by decide) with ⟨line, hline, _⟩
  have : (_click_download_csv dlPageNone).2 = [] := by decide
  rw [this] at hline
  simp at hline

/-- C7 counterexample: the claim says the ISO input 2025-08-24 is written
to the portal form as `24/08/2025`; in fact `_try_set_period_by_inputs`
fills the inputs with `isoformat()`, i.e. the unchanged ISO text
`2025-08-24`. -/
theorem C7_iso_text_filled_not_dmy :
    (_try_set_period_by_inputs ⟨2, true, true⟩ ⟨2025, 8, 24⟩ ⟨2025, 9, 1⟩).2 =
      [FillEvent.fillDateInput 0 "2025-08-24",
       FillEvent.fillDateInput 1 "2025-09-01"] ∧
    "2025-08-24" ≠ "24/08/2025" := by decide

/-- C7 (amended): every value the period-fill step writes into the form is
one of the two dates in ISO `YYYY-MM-DD` form (`date.isoformat()`),
unchanged — not a day/month/year rendering. -/
theorem C7_dates_filled_in_iso_form :
    ∀ (page : PeriodPage) (dfrom dto : PyDate) (e : FillEvent),
      e ∈ (_try_set_period_by_inputs page dfrom dto).2 →
      fillValue e = pyDateIsoformat dfrom ∨ fillValue e = pyDateIsoformat dto := by
  intro page dfrom dto e he
  simp only [_try_set_period_by_inputs] at he
  split at he
  · rcases List.mem_cons.mp he with h | h
    · subst h; left; rfl
    · rcases List.mem_cons.mp h with h2 | h2
      · subst h2; right; rfl
      · simp at h2
  · rcases List.mem_append.mp he with h | h
    · split at h
      · rcases List.mem_cons.mp h with h2 | h2
        · subst h2; left; rfl
        · simp at h2
      · simp at h
    · split at h
      · rcases List.mem_cons.mp h with h2 | h2
        · subst h2; right; rfl
        · simp at h2
      · simp at h

/-- C7 witness: the amended statement at the concrete fill of 2025-08-24. -/
theorem C7_dates_filled_in_iso_form_witness :
    fillValue (FillEvent.fillDateInput 0 "2025-08-24") =
      pyDateIsoformat ⟨2025, 8, 24⟩ ∨
    fillValue (FillEvent.fillDateInput 0 "2025-08-24") =
      pyDateIsoformat ⟨2025, 9, 1⟩ :=
  C7_dates_filled_in_iso_form ⟨2, true, true⟩ ⟨2025, 8, 24⟩ ⟨2025, 9, 1⟩
    (FillEvent.fillDateInput 0 "2025-08-24") (by decide)

/-- C8: every successful `_normalize_ts` result has the canonical shape
`YYYY-MM-DDTHH:MM:00`; blank input gives `None`; each of the six accepted
encodings maps to the canonical text and unrecognized input gives `None`. -/
theorem C8_normalize_ts_canonical :
    (∀ s o, _normalize_ts s = some o → ∃ y mo d h mi, o = canonTs y mo d h mi) ∧
    (∀ s : String, trimL s.data = [] → _normalize_ts s = none) ∧
    _normalize_ts "24/08/2025 10:30" = some "2025-08-24T10:30:00" ∧
    _normalize_ts "24/08/2025 10.30" = some "2025-08-24T10:30:00" ∧
    _normalize_ts "2025-08-24 10:30" = some "2025-08-24T10:30:00" ∧
    _normalize_ts "2025-08-24T10:30" = some "2025-08-24T10:30:00" ∧
    _normalize_ts "24/08/2025" = some "2025-08-24T00:00:00" ∧
    _normalize_ts "2025-08-24" = some "2025-08-24T00:00:00" ∧
    _normalize_ts "" = none ∧
    _normalize_ts "not a timestamp" = none := by
  refine ⟨?_, ?_, by decide, by decide, by decide, by decide, by decide,
    by decide, by decide, by decide⟩
  · intro s o h
    simp only [_normalize_ts] at h
    split at h
    · exact absurd h (by simp)
    · split at h
      next o1 heq =>
        injection h with h2
        subst h2
        exact tryTsFmts_canon _ _ _ heq
      next => exact tryTsFmts_canon _ _ _ h
  · intro s hs
    simp [_normalize_ts, hs]

/-- C8 witness: the canonical-shape guarantee applied to a concrete
normalization. -/
theorem C8_normalize_ts_canonical_witness :
    ∃ y mo d h mi, "2025-08-24T10:30:00" = canonTs y mo d h mi :=
  C8_normalize_ts_canonical.1 "24/08/2025 10:30" "2025-08-24T10:30:00" (by decide)

/-- C9: with no configured API key the guard accepts every request; with a
configured key it raises 401 exactly when the `X-API-Key` header differs
from the key (a missing header counting as different). -/
theorem C9_api_key_guard_behavior :
    ∀ (env hdr : Option String),
      (apiKeyFromEnv env = "" →
        api_key_guard (apiKeyFromEnv env) hdr = Except.ok ()) ∧
      (apiKeyFromEnv env ≠ "" →
        (api_key_guard (apiKeyFromEnv env) hdr = Except.error 401 ↔
          hdr ≠ some (apiKeyFromEnv env))) := by
  intro env hdr
  constructor
  · intro h; simp [api_key_guard, h]
  · intro h
    by_cases hh : hdr = some (apiKeyFromEnv env) <;>
      simp [api_key_guard, h, hh]

/-- C9 witness: a configured key with a missing header is rejected 401. -/
theorem C9_api_key_guard_behavior_witness :
    api_key_guard (apiKeyFromEnv (some " secret ")) none = Except.error 401 :=
  ((C9_api_key_guard_behavior (some " secret ") none).2 (by decide)).mpr (by decide)

/-- C10: `_parse_number` deletes every `.` before turning `,` into `.`
(`"1.5"` parses as 15, not 1.5); on non-blank comma-free input it is
`float()` of the dot-stripped text; and it returns `None` exactly when the
stripped input is empty or the transformed text is not a float literal. -/
theorem C10_parse_number_dot_removal :
    _parse_number "1.5" = some (PyFloatVal.finite 15) ∧
    (∀ s : String, trimL s.data ≠ [] → (∀ c ∈ trimL s.data, c ≠ ',') →
      _parse_number s = pyFloatL (replaceCh '.' [] (trimL s.data))) ∧
    (∀ s : String, _parse_number s = none ↔
      (trimL s.data = [] ∨
        pyFloatL (replaceCh ',' ['.'] (replaceCh '.' [] (trimL s.data))) = none)) := by
  refine ⟨?_, ?_, ?_⟩
  · have h1 : _parse_number "1.5" =
        some (PyFloatVal.finite (Rat.divInt 15 1)) := by decide
    have h2 : Rat.divInt 15 1 = (15 : Rat) := by
      rw [Rat.divInt_eq_div]; norm_num
    rw [h1, h2]
  · intro s hne hcomma
    have hsub : ∀ c ∈ replaceCh '.' [] (trimL s.data), c ≠ ',' :=
      fun c hc => hcomma c (mem_replaceCh_del '.' (trimL s.data) c hc)
    simp only [_parse_number, if_neg hne]
    rw [replaceCh_id_of_not_mem ',' ['.'] _ hsub]
  · intro s
    simp only [_parse_number]
    by_cases he : trimL s.data = [] <;> simp [he]

/-- C10 witness: the comma-free clause applied to `"2.5"`. -/
theorem C10_parse_number_dot_removal_witness :
    _parse_number "2.5" = pyFloatL (replaceCh '.' [] (trimL "2.5".data)) :=
  C10_parse_number_dot_removal.2.1 "2.5" (by decide) (by decide)

end Edis
